import Mathlib

/-!
Shallow embedding of the segment-anything daemon
(src/plugins/segment-anything/main.py): the per-connection receive loop,
the newline framing loop, JSON command decoding, and the set_image and
click handlers, together with theorems settling the specification claims.

Conventions of the embedding:
- Text is `List Char`; a received chunk is either text that decoded as
  UTF-8 or a chunk whose bytes raise UnicodeDecodeError at line 53
  (modelled by the constructor `Chunk.malformed`, e.g. the bytes
  b"\xff" followed by a record).
- The shared-memory world is `ShmEnv : String -> Option Nat`, mapping a
  segment name to its size in bytes when the segment exists.
- The inference adapter (SamPredictor) is external; whether its calls
  succeed is the boolean parameter `adapterOk`.  `predictor.features`
  is the boolean `Session.features`; it is set by a successful
  `predictor.set_image` and left unchanged when the adapter raises.
- Shared-memory side effects are recorded as an `Event` trace.
-/

/-- Wire status codes written to the connection by the daemon
(`b"OK"`, `b"ER"`, `b"BY"`). -/
inductive Reply
  | OK
  | ER
  | BY
deriving DecidableEq

/-- Shared-memory operations performed while handling a command.
`openExisting` is `shared_memory.SharedMemory(name=...)` with the
default `create=False`; `unregister` is
`resource_tracker.unregister(...)`; `readSeg` is the adapter reading the
pixel buffer; `writeSeg` is `np.copyto` into the mask buffer; `close` is
`shm.close()`.  `create` and `unlink` never occur in the daemon but are
part of the event vocabulary so that their absence is a statement, not a
typing accident. -/
inductive Event
  | openExisting (name : String)
  | unregister (name : String)
  | readSeg (name : String)
  | writeSeg (name : String)
  | close (name : String)
  | create (name : String)
  | unlink (name : String)
deriving DecidableEq

/-- The shared-memory namespace: segment name to size in bytes, `none`
when no segment of that name exists. -/
def ShmEnv : Type := String → Option Nat

/-- Session state of the daemon: `features` is whether
`predictor.features` is set (an image is loaded); `currW`/`currH` are
the locals `curr_img_w`/`curr_img_h` of `main` (lines 33-34). -/
structure Session where
  features : Bool
  currW : Nat
  currH : Nat
deriving DecidableEq

/-- JSON values, as produced by the external `json.loads`.  Modelled
from the spec and the external library on the subset the protocol uses:
numbers are integers and strings have no escape sequences (records
using either are classified as undecodable by this model; the daemon
replies ER to both, so no claim distinguishes them). -/
inductive Jval
  | jstr (s : List Char)
  | jnum (n : Int)
  | jbool (b : Bool)
  | jnull
  | jarr (xs : List Jval)
  | jobj (kvs : List (List Char × Jval))

def quoteChar : Char := '\"'

def lbraceChar : Char := '\x7b'

def rbraceChar : Char := '\x7d'

def lbrackChar : Char := '['

def rbrackChar : Char := ']'

/-- Whitespace accepted between JSON tokens. -/
def isWsChar (c : Char) : Bool :=
  c = ' ' || c = '\n' || c = '\t' || c = '\r'

/-- Drop leading whitespace. -/
def skipWs : List Char → List Char
  | [] => []
  | c :: cs => if isWsChar c then skipWs cs else c :: cs

/-- Body of a JSON string after the opening quote: the characters up to
the closing quote and the remaining input.  Escape sequences are not
part of the modelled subset. -/
def strBody : List Char → Option (List Char × List Char)
  | [] => none
  | c :: cs =>
    if c = quoteChar then some ([], cs)
    else if c = '\\' then none
    else (strBody cs).map (fun p => (c :: p.1, p.2))

/-- Longest digit run at the head of the input. -/
def takeDigits : List Char → List Char × List Char
  | [] => ([], [])
  | c :: cs =>
    if c.isDigit then
      let p := takeDigits cs
      (c :: p.1, p.2)
    else ([], c :: cs)

/-- Numeric value of a digit run. -/
def digitsToNat (ds : List Char) : Nat :=
  ds.foldl (fun a c => a * 10 + (c.toNat - 48)) 0

/-- Parse an integer literal (optional leading minus). -/
def numFrom : List Char → Option (Jval × List Char)
  | [] => none
  | c :: cs =>
    if c = '-' then
      match takeDigits cs with
      | ([], _) => none
      | (ds, rest) => some (Jval.jnum (-(Int.ofNat (digitsToNat ds))), rest)
    else
      match takeDigits (c :: cs) with
      | ([], _) => none
      | (ds, rest) => some (Jval.jnum (Int.ofNat (digitsToNat ds)), rest)

/-- Does the literal `pat` head the input?  Returns the rest. -/
def dropLit : List Char → List Char → Option (List Char)
  | [], cs => some cs
  | _, [] => none
  | p :: ps, c :: cs => if p = c then dropLit ps cs else none

mutual

/-- Fuel-bounded recursive-descent parse of one JSON value, returning
the value and the unconsumed input. -/
def parseVal : Nat → List Char → Option (Jval × List Char)
  | 0, _ => none
  | Nat.succ fuel, input =>
    match skipWs input with
    | [] => none
    | c :: rest =>
      if c = quoteChar then
        (strBody rest).map (fun p => (Jval.jstr p.1, p.2))
      else if c = lbraceChar then
        match skipWs rest with
        | [] => none
        | d :: r2 =>
          if d = rbraceChar then some (Jval.jobj [], r2)
          else parseMembers fuel (d :: r2) []
      else if c = lbrackChar then
        match skipWs rest with
        | [] => none
        | d :: r2 =>
          if d = rbrackChar then some (Jval.jarr [], r2)
          else parseElems fuel (d :: r2) []
      else if c = 't' then
        (dropLit (String.toList "rue") rest).map (fun r => (Jval.jbool true, r))
      else if c = 'f' then
        (dropLit (String.toList "alse") rest).map (fun r => (Jval.jbool false, r))
      else if c = 'n' then
        (dropLit (String.toList "ull") rest).map (fun r => (Jval.jnull, r))
      else
        numFrom (c :: rest)

/-- Members of a JSON object after the opening brace (nonempty case). -/
def parseMembers : Nat → List Char → List (List Char × Jval) →
    Option (Jval × List Char)
  | 0, _, _ => none
  | Nat.succ fuel, input, acc =>
    match skipWs input with
    | [] => none
    | c :: rest =>
      if c = quoteChar then
        match strBody rest with
        | none => none
        | some (k, r1) =>
          match skipWs r1 with
          | [] => none
          | d :: r2 =>
            if d = ':' then
              match parseVal fuel r2 with
              | none => none
              | some (v, r3) =>
                match skipWs r3 with
                | [] => none
                | e :: r4 =>
                  if e = ',' then parseMembers fuel r4 (acc ++ [(k, v)])
                  else if e = rbraceChar then
                    some (Jval.jobj (acc ++ [(k, v)]), r4)
                  else none
            else none
      else none

/-- Elements of a JSON array after the opening bracket (nonempty case). -/
def parseElems : Nat → List Char → List Jval → Option (Jval × List Char)
  | 0, _, _ => none
  | Nat.succ fuel, input, acc =>
    match parseVal fuel input with
    | none => none
    | some (v, r1) =>
      match skipWs r1 with
      | [] => none
      | c :: r2 =>
        if c = ',' then parseElems fuel r2 (acc ++ [v])
        else if c = rbrackChar then some (Jval.jarr (acc ++ [v]), r2)
        else none

end

/-- Model of `json.loads` on one framed line: parse one value and
require only trailing whitespace after it. -/
def parseJson (l : List Char) : Option Jval :=
  match parseVal (l.length + 1) l with
  | none => none
  | some (v, rest) => if skipWs rest = [] then some v else none

/-- Python dict lookup for an object built by `json.loads`: with
duplicate keys the last occurrence wins. -/
def getKey (kvs : List (List Char × Jval)) (k : List Char) : Option Jval :=
  kvs.foldl (fun acc p => if p.1 = k then some p.2 else acc) none

/-- Classification of one framed line by the dispatch code
(lines 61-62 and the field accesses of each branch):
`setImage`/`click` when the action matches and the fields are usable;
`badFields` when a recognized action's field access or use raises
(KeyError / TypeError / ValueError), which line 113 turns into ER;
`unknownAction` when the record is an object whose `action` is absent,
non-string, or neither `set_image` nor `click` (no branch taken, no
reply); `notADict` when `json.loads` succeeded but `.get` raises
(AttributeError, line 62); `invalid` when `json.loads` itself raises.

Abstraction note: for a `badFields` set_image record the real code may
assign `curr_img_w`/`curr_img_h` before the raising field access (lines
65-66); the model leaves them unchanged there.  No claim examines
session state after a `badFields` record. -/
inductive Decoded
  | setImage (w h : Nat) (name : String)
  | click (x y : Int) (name : String)
  | badFields
  | unknownAction
  | notADict
  | invalid
deriving DecidableEq

/-- Decode one framed line into its dispatch classification. -/
def decodeLine (l : List Char) : Decoded :=
  match parseJson l with
  | none => Decoded.invalid
  | some (Jval.jobj kvs) =>
    match getKey kvs (String.toList "action") with
    | some (Jval.jstr a) =>
      if a = String.toList "set_image" then
        match getKey kvs (String.toList "width"),
            getKey kvs (String.toList "height"),
            getKey kvs (String.toList "shm_name") with
        | some (Jval.jnum w), some (Jval.jnum h), some (Jval.jstr n) =>
          if 0 ≤ w ∧ 0 ≤ h then
            Decoded.setImage w.toNat h.toNat (String.mk n)
          else Decoded.badFields
        | _, _, _ => Decoded.badFields
      else if a = String.toList "click" then
        match getKey kvs (String.toList "x"),
            getKey kvs (String.toList "y"),
            getKey kvs (String.toList "shm_name") with
        | some (Jval.jnum x), some (Jval.jnum y), some (Jval.jstr n) =>
          Decoded.click x y (String.mk n)
        | _, _, _ => Decoded.badFields
      else Decoded.unknownAction
    | _ => Decoded.unknownAction
  | some _ => Decoded.notADict

/-- The set_image handler (lines 64-82).  The locals `curr_img_w` and
`curr_img_h` are overwritten first (lines 65-66); only then is the
segment opened.  Opening raises FileNotFoundError when the segment does
not exist; `np.ndarray` (lines 71-75) raises when the backing buffer is
smaller than `h*w*4`; `predictor.set_image` (line 78) is the adapter
call.  No branch closes the segment on an exception: the `shm.close()`
of line 81 is reached only on full success. -/
def handleSetImage (env : ShmEnv) (adapterOk : Bool) (s : Session)
    (w h : Nat) (name : String) : Session × List Reply × List Event :=
  let s1 : Session := { s with currW := w, currH := h }
  match env name with
  | none => (s1, [Reply.ER], [])
  | some size =>
    if size < w * h * 4 then
      (s1, [Reply.ER], [Event.openExisting name, Event.unregister name])
    else if adapterOk then
      ({ s1 with features := true }, [Reply.OK],
        [Event.openExisting name, Event.unregister name,
          Event.readSeg name, Event.close name])
    else
      (s1, [Reply.ER], [Event.openExisting name, Event.unregister name])

/-- The click handler (lines 84-111).  When `predictor.features` is
unset it replies BY and `continue`s without touching shared memory
(lines 85-91).  Otherwise `predictor.predict` runs first (lines 93-98);
only then is the mask segment opened (line 100), the mask ndarray built
over it (raising when the buffer is smaller than `curr_img_h*curr_img_w`)
and the mask written (line 108).  As in set_image, `m_shm.close()`
(line 110) is reached only on full success.  The click coordinates are
consumed by the external adapter and do not influence the modelled
control flow. -/
def handleClick (env : ShmEnv) (adapterOk : Bool) (s : Session)
    (x y : Int) (name : String) : Session × List Reply × List Event :=
  if s.features = false then (s, [Reply.BY], [])
  else if adapterOk = false then (s, [Reply.ER], [])
  else
    match env name with
    | none => (s, [Reply.ER], [])
    | some size =>
      if size < s.currW * s.currH then
        (s, [Reply.ER], [Event.openExisting name, Event.unregister name])
      else
        (s, [Reply.OK],
          [Event.openExisting name, Event.unregister name,
            Event.writeSeg name, Event.close name])

/-- Dispatch on the decoded record (lines 62-111 inside the try of line
60): recognized actions go to their handlers; a record whose field
access raises, a non-dict record, and an undecodable record all reach
the `except` of line 113 and reply ER; an object with an unrecognized
or missing action matches neither `if` branch and falls through with no
reply at all. -/
def handleDecoded (env : ShmEnv) (adapterOk : Bool) (s : Session) :
    Decoded → Session × List Reply × List Event
  | Decoded.setImage w h n => handleSetImage env adapterOk s w h n
  | Decoded.click x y n => handleClick env adapterOk s x y n
  | Decoded.badFields => (s, [Reply.ER], [])
  | Decoded.notADict => (s, [Reply.ER], [])
  | Decoded.invalid => (s, [Reply.ER], [])
  | Decoded.unknownAction => (s, [], [])

/-- The whole try/except block of lines 60-115, given the current value
of the local `line`.  When no line has ever been framed the local is
unbound and `json.loads(line)` raises NameError, which the `except` of
line 113 also turns into ER. -/
def handleLine (env : ShmEnv) (adapterOk : Bool) (s : Session) :
    Option (List Char) → Session × List Reply × List Event
  | none => (s, [Reply.ER], [])
  | some l => handleDecoded env adapterOk s (decodeLine l)

/-- Split the buffer at the first newline: the characters before it and
the characters after it (`buffer.split()` with maxsplit 1, line 56). -/
def splitNL : List Char → Option (List Char × List Char)
  | [] => none
  | c :: cs =>
    if c = '\n' then some ([], cs)
    else (splitNL cs).map (fun p => (c :: p.1, p.2))

/-- The inner framing loop of lines 54-58, with fuel for structural
recursion (each iteration consumes at least the newline, so fuel equal
to the buffer length suffices).  Returns the final buffer, the final
value of the local `line` (unchanged when no newline was found), and
the list of lines extracted, in order.  The `if not line: continue` of
lines 57-58 skips nothing because the split is the whole loop body. -/
def framerLoop : Nat → List Char → Option (List Char) →
    List (List Char) → List Char × Option (List Char) × List (List Char)
  | 0, buf, ln, acc => (buf, ln, acc)
  | Nat.succ fuel, buf, ln, acc =>
    match splitNL buf with
    | none => (buf, ln, acc)
    | some (l, rest) => framerLoop fuel rest (some l) (acc ++ [l])

/-- Daemon state threaded through the receive loop: the framing buffer
(line 46), the Python local `line` (`none` while still unbound), and
the session. -/
structure DaemonState where
  buffer : List Char
  line : Option (List Char)
  sess : Session
deriving DecidableEq

/-- Result of one iteration of the receive loop on a nonempty chunk:
the new daemon state, the replies written, the shared-memory events,
the lines the framing loop extracted from the buffer, and the list of
`line` values the try-block of line 60 was executed on. -/
structure StepResult where
  state : DaemonState
  replies : List Reply
  events : List Event
  framed : List (List Char)
  invocations : List (Option (List Char))
deriving DecidableEq

/-- One iteration of the receive loop (lines 48-115) on a nonempty
decoded chunk: append the chunk to the buffer (line 53), run the inner
framing loop to exhaustion (lines 54-58), then run the try-block of
lines 60-115 once, on whatever the local `line` now holds.  The
try-block is NOT inside the framing loop in the source: it executes
exactly once per received chunk. -/
def processChunk (env : ShmEnv) (adapterOk : Bool) (st : DaemonState)
    (chunk : List Char) : StepResult :=
  let buf1 := st.buffer ++ chunk
  let fr := framerLoop (buf1.length + 1) buf1 st.line []
  let hr := handleLine env adapterOk st.sess fr.2.1
  { state := { buffer := fr.1, line := fr.2.1, sess := hr.1 },
    replies := hr.2.1,
    events := hr.2.2,
    framed := fr.2.2,
    invocations := [fr.2.1] }

/-- A chunk returned by `conn.recv`: either bytes that decode as UTF-8
(`text`, with the empty text meaning the peer closed the connection,
line 50) or bytes on which `data.decode("utf-8")` at line 53 raises
UnicodeDecodeError (for example b"\xff" followed by anything). -/
inductive Chunk
  | text (s : List Char)
  | malformed
deriving DecidableEq

/-- How the receive loop ends: the peer closed (recv returned empty,
line 50-51, `break`), an exception escaped the loop (the UTF-8 decode
of line 53 raised outside the try), or the supplied chunk list ran out
with the daemon still blocked in `conn.recv`. -/
inductive LoopExit
  | peerClosed
  | decodeCrash
  | pending
deriving DecidableEq

/-- Accumulated result of running the receive loop over a list of
received chunks. -/
structure RunResult where
  state : DaemonState
  replies : List Reply
  events : List Event
  ex : LoopExit
deriving DecidableEq

/-- The receive loop of lines 47-115 over a list of chunks delivered by
`conn.recv`.  An empty text chunk breaks the loop (peer closed); a
malformed chunk raises UnicodeDecodeError at line 53, outside the
try/except, ending loop and process; otherwise the chunk is processed
and the loop continues. -/
def runLoop (env : ShmEnv) (adapterOk : Bool) (st : DaemonState) :
    List Chunk → RunResult
  | [] => { state := st, replies := [], events := [], ex := LoopExit.pending }
  | Chunk.malformed :: _ =>
    { state := st, replies := [], events := [], ex := LoopExit.decodeCrash }
  | Chunk.text [] :: _ =>
    { state := st, replies := [], events := [], ex := LoopExit.peerClosed }
  | Chunk.text (c :: cs) :: rest =>
    let r := processChunk env adapterOk st (c :: cs)
    let k := runLoop env adapterOk r.state rest
    { state := k.state,
      replies := r.replies ++ k.replies,
      events := r.events ++ k.events,
      ex := k.ex }

/-- Daemon state at `conn.accept`: empty buffer, `line` unbound, no
image loaded, zero dimensions (lines 33-34, 46). -/
def initState : DaemonState :=
  { buffer := [], line := none,
    sess := { features := false, currW := 0, currH := 0 } }

/-- Exit code of `main` (lines 16-121) as a function of whether the
checkpoint file exists (line 23), the shared-memory environment, the
adapter, and the chunks the connection delivers: missing checkpoint
exits 1 (line 28); a clean peer close breaks the loop and `main`
returns, exit 0; an uncaught exception exits nonzero; a daemon still
blocked in recv has not exited (`none`). -/
def mainExit (checkpointExists : Bool) (env : ShmEnv) (adapterOk : Bool)
    (chunks : List Chunk) : Option Nat :=
  if checkpointExists = false then some 1
  else
    match (runLoop env adapterOk initState chunks).ex with
    | LoopExit.peerClosed => some 0
    | LoopExit.decodeCrash => some 1
    | LoopExit.pending => none

/-- Opens among an event trace. -/
def isOpenEv : Event → Bool
  | Event.openExisting _ => true
  | _ => false

/-- Closes among an event trace. -/
def isCloseEv : Event → Bool
  | Event.close _ => true
  | _ => false

/-- Number of segment opens in a trace. -/
def openCount (evs : List Event) : Nat := (evs.filter isOpenEv).length

/-- Number of segment closes in a trace. -/
def closeCount (evs : List Event) : Nat := (evs.filter isCloseEv).length

/-- True of events that neither create nor unlink a segment. -/
def noCreateUnlink : Event → Bool
  | Event.create _ => false
  | Event.unlink _ => false
  | _ => true

/-! Concrete inputs used by counterexamples and witnesses. -/

/-- A click record at (1,1) targeting segment "A". -/
def clickLineA : List Char :=
  ("\x7b\"action\":\"click\",\"x\":1,\"y\":1,\"shm_name\":\"A\"\x7d").toList

/-- A click record at (2,2) targeting segment "A". -/
def clickLineA2 : List Char :=
  ("\x7b\"action\":\"click\",\"x\":2,\"y\":2,\"shm_name\":\"A\"\x7d").toList

/-- A click record at (2,2) targeting segment "B". -/
def clickLineB : List Char :=
  ("\x7b\"action\":\"click\",\"x\":2,\"y\":2,\"shm_name\":\"B\"\x7d").toList

/-- A set_image record for a 4 by 4 image in segment "A". -/
def setImageLine : List Char :=
  ("\x7b\"action\":\"set_image\",\"width\":4,\"height\":4,\"shm_name\":\"A\"\x7d").toList

/-- A record with an unrecognized action. -/
def bogusLine : List Char := ("\x7b\"action\":\"bogus\"\x7d").toList

/-- A record that is not well-formed JSON. -/
def helloLine : List Char := ("hello").toList

/-- A shared-memory world with no segments. -/
def env0 : ShmEnv := fun _ => none

/-- A world where only segment "A" exists, 100 bytes. -/
def envA100 : ShmEnv := fun n => if n = "A" then some 100 else none

/-- A world where only segment "A" exists, 1000 bytes. -/
def envA1000 : ShmEnv := fun n => if n = "A" then some 1000 else none

/-- A world where only segment "A" exists, 64 bytes (a 4*4*4 image). -/
def envA64 : ShmEnv := fun n => if n = "A" then some 64 else none

/-- A world where only segment "B" exists, 16 bytes (a 4*4 mask). -/
def envB16 : ShmEnv := fun n => if n = "B" then some 16 else none

/-- A session with no image loaded. -/
def sess0 : Session := { features := false, currW := 0, currH := 0 }

/-- A session with a 4 by 4 image loaded. -/
def sessionLoaded44 : Session := { features := true, currW := 4, currH := 4 }

/-- Daemon state mid-connection with a 4 by 4 image loaded and an empty
framing buffer. -/
def readyState : DaemonState :=
  { buffer := [], line := none, sess := sessionLoaded44 }

/-- One chunk carrying two complete newline-terminated click records. -/
def twoClickChunk : List Char :=
  clickLineA ++ ['\n'] ++ clickLineA2 ++ ['\n']

/-- The click record for segment "B" with its newline terminator. -/
def wholeRecB : List Char := clickLineB ++ ['\n']

/-! Helper lemmas shared by several claim proofs. -/

/-- Every execution of the try-block writes at most one status code:
each handler branch ends in a single sendall or in none at all. -/
theorem handleLine_writes_at_most_one (env : ShmEnv) (adapterOk : Bool)
    (s : Session) (ol : Option (List Char)) :
    (handleLine env adapterOk s ol).2.1.length ≤ 1 := by
  cases ol with
  | none => simp [handleLine]
  | some l =>
    cases hd : decodeLine l with
    | setImage w h n =>
      simp only [handleLine, hd, handleDecoded, handleSetImage]
      cases henv : env n with
      | none => simp
      | some sz =>
        by_cases hlt : sz < w * h * 4
        · simp [hlt]
        · cases adapterOk <;> simp [hlt]
    | click x y n =>
      simp only [handleLine, hd, handleDecoded, handleClick]
      cases hsf : s.features with
      | false => simp
      | true =>
        cases adapterOk with
        | false => simp
        | true =>
          cases henv : env n with
          | none => simp
          | some sz => by_cases hlt : sz < s.currW * s.currH <;> simp [hlt]
    | badFields => simp [handleLine, hd, handleDecoded]
    | unknownAction => simp [handleLine, hd, handleDecoded]
    | notADict => simp [handleLine, hd, handleDecoded]
    | invalid => simp [handleLine, hd, handleDecoded]

/-- When every received chunk decodes as UTF-8 and one of them is the
empty read signalling peer close, the receive loop ends by the `break`
of line 51. -/
theorem runLoop_reaches_peerClosed (env : ShmEnv) (adapterOk : Bool)
    (chunks : List Chunk) (hclean : ∀ c ∈ chunks, c ≠ Chunk.malformed)
    (hclose : Chunk.text [] ∈ chunks) :
    ∀ st : DaemonState,
      (runLoop env adapterOk st chunks).ex = LoopExit.peerClosed := by
  induction chunks with
  | nil => cases hclose
  | cons c rest ih =>
    intro st
    cases c with
    | malformed =>
      exact absurd rfl (hclean Chunk.malformed (List.mem_cons_self _ _))
    | text s =>
      cases s with
      | nil => simp [runLoop]
      | cons a as =>
        have hrest : Chunk.text [] ∈ rest := by
          rcases List.mem_cons.mp hclose with h | h
          · exact absurd h.symm (by simp)
          · exact h
        have hcleanRest : ∀ c ∈ rest, c ≠ Chunk.malformed :=
          fun c hc => hclean c (List.mem_cons_of_mem _ hc)
        simp only [runLoop]
        exact ih hcleanRest hrest _

/-- When no received chunk fails UTF-8 decoding, no exception escapes
the receive loop: it ends only by peer close or by running out of
supplied input. -/
theorem runLoop_clean_never_crashes (env : ShmEnv) (adapterOk : Bool)
    (chunks : List Chunk) (hclean : ∀ c ∈ chunks, c ≠ Chunk.malformed) :
    ∀ st : DaemonState,
      (runLoop env adapterOk st chunks).ex ≠ LoopExit.decodeCrash := by
  induction chunks with
  | nil => intro st; simp [runLoop]
  | cons c rest ih =>
    intro st
    cases c with
    | malformed =>
      exact absurd rfl (hclean Chunk.malformed (List.mem_cons_self _ _))
    | text s =>
      cases s with
      | nil => simp [runLoop]
      | cons a as =>
        simp only [runLoop]
        exact ih (fun c hc => hclean c (List.mem_cons_of_mem _ hc)) _

/-! Claim theorems. -/

/-- Claim C1 (code evaluation at the failing input): a single chunk
carrying two complete newline-terminated click records.  The framing
loop extracts both records, but the try-block runs only once, on the
second record, and exactly one BY reply is written instead of the two
replies the specification requires. -/
theorem two_records_one_chunk_single_reply_eval :
    (processChunk env0 true initState twoClickChunk).framed.length = 2 ∧
    (processChunk env0 true initState twoClickChunk).replies = [Reply.BY] := by
  decide

/-- Claim C2 (code evaluation at the failing input): the same click
record delivered whole produces the reply sequence [OK], but delivered
split after 5 characters it produces [ER, OK]: the first chunk has no
newline, yet the try-block still runs, on the unbound local `line`,
raising NameError and writing a spurious ER. -/
theorem split_record_changes_reply_sequence_eval :
    (runLoop envB16 true readyState [Chunk.text wholeRecB]).replies
        = [Reply.OK] ∧
    (runLoop envB16 true readyState
        [Chunk.text (wholeRecB.take 5), Chunk.text (wholeRecB.drop 5)]).replies
        = [Reply.ER, Reply.OK] := by
  decide

/-- Claim C3 (counterexample): a set_image for an 8 by 8 image backed
by a 100-byte segment (smaller than 8*8*4 = 256) replies ER, as
claimed, but the session does NOT equal its prior value: the recorded
dimensions were already overwritten at lines 65-66 before the failure,
leaving the session half-updated. -/
theorem small_segment_set_image_mutates_session :
    envA100 "A" = some 100 ∧ 100 < 8 * 8 * 4 ∧
    (handleSetImage envA100 true sessionLoaded44 8 8 "A").2.1 = [Reply.ER] ∧
    (handleSetImage envA100 true sessionLoaded44 8 8 "A").1 ≠ sessionLoaded44 := by
  decide

/-- Claim C3 (amended): a set_image that fails — segment absent,
segment smaller than width*height*4, or adapter failure — replies ER
and leaves the loaded flag unchanged, but the recorded width and height
are overwritten with the command's values before the failure is
detected; the session is left half-updated. -/
theorem failed_set_image_keeps_flag_overwrites_dims (env : ShmEnv)
    (adapterOk : Bool) (s : Session) (w h : Nat) (n : String)
    (hfail : env n = none ∨ (∃ sz, env n = some sz ∧ sz < w * h * 4) ∨
      adapterOk = false) :
    (handleSetImage env adapterOk s w h n).1
        = { s with currW := w, currH := h } ∧
    (handleSetImage env adapterOk s w h n).2.1 = [Reply.ER] := by
  rcases hfail with henv | ⟨sz, henv, hlt⟩ | hak
  · simp [handleSetImage, henv]
  · simp [handleSetImage, henv, hlt]
  · subst hak
    simp only [handleSetImage]
    cases henv : env n with
    | none => simp
    | some sz => by_cases hlt : sz < w * h * 4 <;> simp [hlt]

/-- Claim C3 (amended, witness): the amended statement evaluated at the
100-byte segment counterexample input. -/
theorem failed_set_image_keeps_flag_overwrites_dims_witness :
    (handleSetImage envA100 true sessionLoaded44 8 8 "A").1
        = { sessionLoaded44 with currW := 8, currH := 8 } ∧
    (handleSetImage envA100 true sessionLoaded44 8 8 "A").2.1 = [Reply.ER] :=
  failed_set_image_keeps_flag_overwrites_dims envA100 true sessionLoaded44 8 8
    "A" (Or.inr (Or.inl ⟨100, by decide, by decide⟩))

/-- Claim C4 (counterexample): a well-formed record whose action is the
unrecognized "bogus" matches neither dispatch branch and falls out of
the try-block with NO reply written at all — not the single ER the
claim requires.  Session state is unchanged. -/
theorem unknown_action_writes_no_reply :
    decodeLine bogusLine = Decoded.unknownAction ∧
    (handleLine env0 true sess0 (some bogusLine)).2.1 = [] ∧
    (handleLine env0 true sess0 (some bogusLine)).1 = sess0 := by
  decide

/-- Claim C4 (amended): a record that fails to decode as a structured
value (json.loads raises, or the decoded value is not an object so the
.get of line 62 raises) yields exactly one ER with session state
unchanged; a record that decodes to an object whose action is
unrecognized yields NO reply, with session state unchanged. -/
theorem undecodable_er_unknown_action_silent (env : ShmEnv)
    (adapterOk : Bool) (s : Session) (l : List Char) :
    ((decodeLine l = Decoded.invalid ∨ decodeLine l = Decoded.notADict) →
      handleLine env adapterOk s (some l) = (s, [Reply.ER], [])) ∧
    (decodeLine l = Decoded.unknownAction →
      handleLine env adapterOk s (some l) = (s, [], [])) := by
  constructor
  · intro h
    rcases h with h | h <;> simp [handleLine, h, handleDecoded]
  · intro h
    simp [handleLine, h, handleDecoded]

/-- Claim C4 (amended, witness): the amended statement evaluated on a
non-JSON record and on an unknown-action record. -/
theorem undecodable_er_unknown_action_silent_witness :
    handleLine env0 true sess0 (some helloLine) = (sess0, [Reply.ER], []) ∧
    handleLine env0 true sess0 (some bogusLine) = (sess0, [], []) :=
  ⟨(undecodable_er_unknown_action_silent env0 true sess0 helloLine).1
      (Or.inl (by decide)),
    (undecodable_er_unknown_action_silent env0 true sess0 bogusLine).2
      (by decide)⟩

/-- Claim C5: a click record handled while no image has been loaded
(`predictor.features` unset) replies BY, leaves the session unchanged,
and performs no shared-memory operation whatsoever: the event trace of
the handler is empty. -/
theorem click_before_load_replies_by_no_shm (env : ShmEnv)
    (adapterOk : Bool) (s : Session) (x y : Int) (n : String)
    (l : List Char) (hnf : s.features = false)
    (hdec : decodeLine l = Decoded.click x y n) :
    handleLine env adapterOk s (some l) = (s, [Reply.BY], []) := by
  simp [handleLine, hdec, handleDecoded, handleClick, hnf]

/-- Claim C5 (witness): a concrete click record handled in the initial
session with no image loaded. -/
theorem click_before_load_replies_by_no_shm_witness :
    handleLine env0 true sess0 (some clickLineA) = (sess0, [Reply.BY], []) :=
  click_before_load_replies_by_no_shm env0 true sess0 1 1 "A" clickLineA
    (by decide) (by decide)

/-- Claim C6 (counterexample): a received chunk whose bytes do not
decode as UTF-8 (for example b"\xff" followed by a record) raises
UnicodeDecodeError at line 53, OUTSIDE the try/except: no ER is
written, the loop ends, and the process exits nonzero — a per-command
decode failure that terminates both connection and process. -/
theorem malformed_chunk_terminates_daemon :
    (runLoop env0 true initState [Chunk.malformed]).replies = [] ∧
    (runLoop env0 true initState [Chunk.malformed]).ex
        = LoopExit.decodeCrash ∧
    mainExit true env0 true [Chunk.malformed] = some 1 := by
  decide

/-- Claim C6 (amended): per-command errors caught by the try/except of
lines 60-115 — undecodable framed records, segment errors, adapter
errors — reply ER and never end the receive loop; but a received chunk
that fails UTF-8 decoding raises outside the handler and terminates
connection and process.  For every run whose chunks all decode, no
exception escapes the loop. -/
theorem clean_chunks_never_crash_loop (env : ShmEnv) (adapterOk : Bool)
    (chunks : List Chunk) (hclean : ∀ c ∈ chunks, c ≠ Chunk.malformed) :
    (runLoop env adapterOk initState chunks).ex ≠ LoopExit.decodeCrash :=
  runLoop_clean_never_crashes env adapterOk chunks hclean initState

/-- Claim C6 (amended, witness): a run over two well-formed text chunks
does not crash the loop. -/
theorem clean_chunks_never_crash_loop_witness :
    (runLoop env0 true initState
        [Chunk.text twoClickChunk, Chunk.text wholeRecB]).ex
      ≠ LoopExit.decodeCrash :=
  clean_chunks_never_crash_loop env0 true
    [Chunk.text twoClickChunk, Chunk.text wholeRecB] (by decide)

/-- Claim C7 (counterexample): a set_image over an existing, large
enough segment whose adapter call fails replies ER with the segment
opened but never closed: there is no finally-block, so the exception
skips the `shm.close()` of line 81 and the mapping is retained past the
command. -/
theorem adapter_failure_retains_mapping :
    (handleSetImage envA1000 false sess0 4 4 "A").2.1 = [Reply.ER] ∧
    openCount (handleSetImage envA1000 false sess0 4 4 "A").2.2 = 1 ∧
    closeCount (handleSetImage envA1000 false sess0 4 4 "A").2.2 = 0 := by
  decide

/-- Claim C7 (amended): on every path that does not reply ER — success
(OK), busy rejection (BY), and the silent unknown-action path — every
mapping acquired during the command is closed before the handler
returns; only ER paths can retain a mapping. -/
theorem non_error_paths_release_mappings (env : ShmEnv) (adapterOk : Bool)
    (s : Session) (ol : Option (List Char))
    (h : (handleLine env adapterOk s ol).2.1 ≠ [Reply.ER]) :
    openCount (handleLine env adapterOk s ol).2.2
      = closeCount (handleLine env adapterOk s ol).2.2 := by
  cases ol with
  | none => simp [handleLine] at h
  | some l =>
    cases hd : decodeLine l with
    | setImage w hh nm =>
      simp only [handleLine, hd, handleDecoded, handleSetImage] at h ⊢
      cases henv : env nm with
      | none => simp [henv] at h
      | some sz =>
        simp only [henv] at h ⊢
        by_cases hlt : sz < w * hh * 4
        · simp [hlt] at h
        · cases adapterOk with
          | false => simp [hlt] at h
          | true =>
            simp [hlt, openCount, closeCount, List.filter, isOpenEv,
              isCloseEv]
    | click x y nm =>
      simp only [handleLine, hd, handleDecoded, handleClick] at h ⊢
      by_cases hsf : s.features = false
      · simp [hsf, openCount, closeCount, List.filter]
      · by_cases hak : adapterOk = false
        · simp [hsf, hak] at h
        · simp only [hsf, hak, if_neg, if_false] at h ⊢
          cases henv : env nm with
          | none => simp [hsf, hak, henv] at h
          | some sz =>
            simp only [hsf, hak, henv] at h ⊢
            by_cases hlt : sz < s.currW * s.currH
            · simp [hsf, hak, hlt] at h
            · simp [hsf, hak, hlt, openCount, closeCount, List.filter,
                isOpenEv, isCloseEv]
    | badFields => simp [handleLine, hd, handleDecoded] at h
    | unknownAction =>
      simp [handleLine, hd, handleDecoded, openCount, closeCount,
        List.filter]
    | notADict => simp [handleLine, hd, handleDecoded] at h
    | invalid => simp [handleLine, hd, handleDecoded] at h

/-- Claim C7 (amended, witness): a fully successful set_image opens one
mapping and closes it. -/
theorem non_error_paths_release_mappings_witness :
    openCount (handleLine envA64 true sess0 (some setImageLine)).2.2
      = closeCount (handleLine envA64 true sess0 (some setImageLine)).2.2 :=
  non_error_paths_release_mappings envA64 true sess0 (some setImageLine)
    (by decide)

/-- Claim C8: whatever record is handled and whatever the shared-memory
world, the handler never emits a create or an unlink event — opening is
attach-only (`SharedMemory(name=...)` with the default `create=False`,
followed by `resource_tracker.unregister` precisely so that the tracker
will not unlink the host's segment) and release is `close()` only — and
every segment actually opened exists in the world. -/
theorem bridge_never_creates_or_unlinks (env : ShmEnv) (adapterOk : Bool)
    (s : Session) (ol : Option (List Char)) :
    ((handleLine env adapterOk s ol).2.2.all noCreateUnlink) = true ∧
    (∀ n, Event.openExisting n ∈ (handleLine env adapterOk s ol).2.2 →
      (env n).isSome = true) := by
  cases ol with
  | none => simp [handleLine]
  | some l =>
    cases hd : decodeLine l with
    | setImage w hh nm =>
      simp only [handleLine, hd, handleDecoded, handleSetImage]
      cases henv : env nm with
      | none => simp
      | some sz =>
        by_cases hlt : sz < w * hh * 4
        · constructor
          · simp [hlt, noCreateUnlink]
          · intro n hn
            simp [hlt, List.mem_cons] at hn
            simp [hn, henv]
        · cases adapterOk with
          | false =>
            constructor
            · simp [hlt, noCreateUnlink]
            · intro n hn
              simp [hlt, List.mem_cons] at hn
              simp [hn, henv]
          | true =>
            constructor
            · simp [hlt, noCreateUnlink]
            · intro n hn
              simp [hlt, List.mem_cons] at hn
              simp [hn, henv]
    | click x y nm =>
      simp only [handleLine, hd, handleDecoded, handleClick]
      by_cases hsf : s.features = false
      · simp [hsf]
      · by_cases hak : adapterOk = false
        · simp [hsf, hak]
        · simp only [hsf, hak, if_false]
          cases henv : env nm with
          | none => simp [hsf, hak]
          | some sz =>
            by_cases hlt : sz < s.currW * s.currH
            · constructor
              · simp [hsf, hak, hlt, noCreateUnlink]
              · intro n hn
                simp [hsf, hak, hlt, List.mem_cons] at hn
                simp [hn, henv]
            · constructor
              · simp [hsf, hak, hlt, noCreateUnlink]
              · intro n hn
                simp [hsf, hak, hlt, List.mem_cons] at hn
                simp [hn, henv]
    | badFields => simp [handleLine, hd, handleDecoded]
    | unknownAction => simp [handleLine, hd, handleDecoded]
    | notADict => simp [handleLine, hd, handleDecoded]
    | invalid => simp [handleLine, hd, handleDecoded]

/-- Claim C8 (witness): on a successful concrete set_image, the trace
creates and unlinks nothing, and the opened segment "A" exists. -/
theorem bridge_never_creates_or_unlinks_witness :
    ((handleLine envA64 true sess0 (some setImageLine)).2.2.all
        noCreateUnlink) = true ∧
    (envA64 "A").isSome = true :=
  ⟨(bridge_never_creates_or_unlinks envA64 true sess0 (some setImageLine)).1,
    (bridge_never_creates_or_unlinks envA64 true sess0
        (some setImageLine)).2 "A" (by decide)⟩

/-- Claim C9: with the checkpoint file missing, `main` exits 1 whatever
the connection delivers; with the checkpoint present, a run whose
chunks all decode and which ends with the peer's empty read exits 0. -/
theorem startup_and_close_exit_codes (env : ShmEnv) (adapterOk : Bool)
    (chunks : List Chunk) :
    mainExit false env adapterOk chunks = some 1 ∧
    ((∀ c ∈ chunks, c ≠ Chunk.malformed) → Chunk.text [] ∈ chunks →
      mainExit true env adapterOk chunks = some 0) := by
  constructor
  · simp [mainExit]
  · intro hclean hclose
    have hx := runLoop_reaches_peerClosed env adapterOk chunks hclean hclose
      initState
    simp [mainExit, hx]

/-- Claim C9 (witness): the exit codes evaluated on a connection that
closes immediately. -/
theorem startup_and_close_exit_codes_witness :
    mainExit false env0 true [Chunk.text []] = some 1 ∧
    mainExit true env0 true [Chunk.text []] = some 0 :=
  ⟨(startup_and_close_exit_codes env0 true [Chunk.text []]).1,
    (startup_and_close_exit_codes env0 true [Chunk.text []]).2 (by decide)
      (by decide)⟩

/-- Claim C10: for every nonempty received chunk, the try-block of
lines 60-115 executes exactly once, on the most recently framed line
(the final value of the local `line` after the framing loop), whatever
number of complete records the chunk completed, and at most one status
reply is written for the chunk. -/
theorem nonempty_chunk_processes_once_at_most_one_reply (env : ShmEnv)
    (adapterOk : Bool) (st : DaemonState) (chunk : List Char)
    (hne : chunk ≠ []) :
    (processChunk env adapterOk st chunk).invocations
        = [(processChunk env adapterOk st chunk).state.line] ∧
    (processChunk env adapterOk st chunk).invocations.length = 1 ∧
    (processChunk env adapterOk st chunk).replies.length ≤ 1 :=
  ⟨rfl, rfl, handleLine_writes_at_most_one env adapterOk st.sess _⟩

/-- Claim C10 (witness): the statement evaluated on the two-record
chunk. -/
theorem nonempty_chunk_processes_once_at_most_one_reply_witness :
    (processChunk env0 true initState twoClickChunk).invocations
        = [(processChunk env0 true initState twoClickChunk).state.line] ∧
    (processChunk env0 true initState twoClickChunk).invocations.length
        = 1 ∧
    (processChunk env0 true initState twoClickChunk).replies.length ≤ 1 :=
  nonempty_chunk_processes_once_at_most_one_reply env0 true initState
    twoClickChunk (by decide)
